import Mathlib

/-!
Verification of the pipeline orchestration core of the ai-research-assistant
repository: a shallow embedding of src/database.py, src/pipeline.py and the
relevant interface of src/skill_runner.py / src/feed_manager.py, followed by
theorems about the embedded operations.

Modelling conventions:
* Timestamps are natural numbers counted in hours (the backoff schedule of
  database.py is expressed in hours); SQLite CURRENT_TIMESTAMP becomes an
  explicit now parameter threaded into each call.
* SQLite tables become Lean lists kept in insertion (rowid) order, with an
  explicit AUTOINCREMENT counter per table.
* External effects (feed download, skill subprocess, notification) are inputs:
  the raw feed entries and the per-entry skill outcome are fields of the run
  environment.  Logging relevant to the specification (error and warning logs,
  lock-acquisition attempts, skill invocations) is modelled as an event trace.
* The post-processing batch stage of pipeline.py (lines 246-281) only invokes
  an external subprocess and logs; it touches no database state, so it has no
  footprint in the state-level embedding.
-/

/-- Category of a feed, the closed set checked by the feeds table schema in
database.py (CHECK category IN (articles, youtube, podcasts)). -/
inductive Category where
  | articles
  | youtube
  | podcasts
deriving DecidableEq

/-- Modelled from the spec: src/models.py is not among the provided sources;
the Entry value type follows spec section 3 and the constructor calls in
feed_manager.py (lines 122-134) and pipeline.py (lines 142-154). -/
structure Entry where
  guid : String
  title : String
  url : String
  content : String
  author : Option String
  published_at : Option Nat
  feed_id : Nat
  feed_title : String
  category : Category
deriving DecidableEq

/-- Row of the processed_entries table (database.py schema lines 23-33). -/
structure ProcessedRow where
  id : Nat
  entry_guid : String
  feed_id : Nat
  entry_url : String
  entry_title : Option String
  processed_at : Nat
  note_path : Option String
deriving DecidableEq

/-- Row of the retry_queue table (database.py schema lines 36-49). -/
structure RetryRow where
  id : Nat
  entry_guid : String
  feed_id : Nat
  entry_url : String
  entry_title : Option String
  category : Category
  first_failed_at : Nat
  last_attempt_at : Nat
  next_retry_at : Nat
  retry_count : Nat
  last_error : String
deriving DecidableEq

/-- Status of a pipeline run (database.py schema line 59). -/
inductive RunStatus where
  | running
  | completed
  | failed
deriving DecidableEq

/-- Row of the pipeline_runs table (database.py schema lines 52-60). -/
structure RunRow where
  id : Nat
  started_at : Nat
  completed_at : Option Nat
  items_fetched : Nat
  items_processed : Nat
  items_failed : Nat
  status : RunStatus
deriving DecidableEq

/-- The persistent state store of database.py: the three tables the
orchestrator mutates, each as a list in insertion order together with its
AUTOINCREMENT counter.  (The feeds table is read only through the feed
collaborator and is not part of the orchestrated state.) -/
structure Database where
  processed_entries : List ProcessedRow
  retry_queue : List RetryRow
  pipeline_runs : List RunRow
  processed_seq : Nat
  retry_seq : Nat
  run_seq : Nat
deriving DecidableEq

/-- Guids currently present in the processed_entries table. -/
def processedGuids (db : Database) : List String :=
  db.processed_entries.map (fun r => r.entry_guid)

/-- Guids currently present in the retry_queue table. -/
def retryGuids (db : Database) : List String :=
  db.retry_queue.map (fun r => r.entry_guid)

/-- Database.is_processed (database.py lines 93-99): existence check against
processed_entries. -/
def is_processed (db : Database) (entry_guid : String) : Bool :=
  db.processed_entries.any (fun r => r.entry_guid == entry_guid)

/-- Database.mark_processed (database.py lines 101-116): INSERT into
processed_entries; the UNIQUE constraint on entry_guid makes the insert fail
(sqlite3.IntegrityError) when the guid is already present. -/
def mark_processed (db : Database) (entry_guid : String) (feed_id : Nat)
    (entry_url : String) (entry_title : Option String)
    (note_path : Option String) (now : Nat) : Except String Database :=
  if is_processed db entry_guid then
    .error "UNIQUE constraint failed: processed_entries.entry_guid"
  else
    .ok { db with
      processed_entries := db.processed_entries ++
        [{ id := db.processed_seq, entry_guid := entry_guid, feed_id := feed_id,
           entry_url := entry_url, entry_title := entry_title,
           processed_at := now, note_path := note_path }],
      processed_seq := db.processed_seq + 1 }

/-- Database.record_run_start (database.py lines 118-125): INSERT a running
RunRecord, returning the fresh rowid. -/
def record_run_start (db : Database) (now : Nat) : Nat × Database :=
  (db.run_seq,
   { db with
     pipeline_runs := db.pipeline_runs ++
       [{ id := db.run_seq, started_at := now, completed_at := none,
          items_fetched := 0, items_processed := 0, items_failed := 0,
          status := .running }],
     run_seq := db.run_seq + 1 })

/-- Database.record_run_complete (database.py lines 127-138): UPDATE the row
whose id equals run_id, stamping completion time, final counts and status
completed.  The UPDATE matches zero rows when no such id exists. -/
def record_run_complete (db : Database) (run_id : Nat) (processed : Nat)
    (failed : Nat) (now : Nat) : Database :=
  { db with
    pipeline_runs := db.pipeline_runs.map (fun r =>
      if r.id = run_id then
        { r with completed_at := some now, items_processed := processed,
                 items_failed := failed, status := .completed }
      else r) }

/-- Database.get_last_successful_run (database.py lines 140-150): latest
completion time among completed runs. -/
def get_last_successful_run (db : Database) : Option Nat :=
  (db.pipeline_runs.filterMap (fun r =>
      if r.status = .completed then r.completed_at else none)).foldl
    (fun acc t =>
      match acc with
      | none => some t
      | some m => some (max m t)) none

/-- Database.BACKOFF_HOURS (database.py line 153). -/
def BACKOFF_HOURS : List Nat := [1, 4, 12, 24]

/-- First retry_queue row carrying the given guid (the row the SELECT of
database.py line 166 reads; the UNIQUE constraint keeps it unique). -/
def retryLookup (db : Database) (entry_guid : String) : Option RetryRow :=
  db.retry_queue.find? (fun r => r.entry_guid == entry_guid)

/-- Database.add_to_retry_queue (database.py lines 155-198): upsert with
backoff.  An existing row has its counter incremented; a counter reaching the
schedule length deletes the row; otherwise the row (or a fresh row with
counter 0) gets next_retry_at = now + schedule[counter]. -/
def add_to_retry_queue (db : Database) (entry_guid : String) (feed_id : Nat)
    (entry_url : String) (entry_title : Option String) (category : Category)
    (error : String) (now : Nat) : Database :=
  match retryLookup db entry_guid with
  | some existing =>
    let retry_count := existing.retry_count + 1
    if BACKOFF_HOURS.length ≤ retry_count then
      { db with
        retry_queue := db.retry_queue.filter
          (fun r => !(r.entry_guid == entry_guid)) }
    else
      let backoff := BACKOFF_HOURS.getD retry_count 0
      { db with
        retry_queue := db.retry_queue.map (fun r =>
          if r.entry_guid == entry_guid then
            { r with retry_count := retry_count, last_attempt_at := now,
                     next_retry_at := now + backoff, last_error := error }
          else r) }
  | none =>
    let backoff := BACKOFF_HOURS.getD 0 0
    { db with
      retry_queue := db.retry_queue ++
        [{ id := db.retry_seq, entry_guid := entry_guid, feed_id := feed_id,
           entry_url := entry_url, entry_title := entry_title,
           category := category, first_failed_at := now,
           last_attempt_at := now, next_retry_at := now + backoff,
           retry_count := 0, last_error := error }],
      retry_seq := db.retry_seq + 1 }

/-- Stable insertion of a row into a list already ordered by next_retry_at:
the row goes in front of the first element with a later-or-equal due time. -/
def insertByNext (r : RetryRow) : List RetryRow → List RetryRow
  | [] => [r]
  | x :: xs =>
    if r.next_retry_at ≤ x.next_retry_at then r :: x :: xs
    else x :: insertByNext r xs

/-- Stable sort by next_retry_at, the embedding of ORDER BY next_retry_at as
answered through the idx_retry_next index scan (equal keys come out in rowid,
i.e. insertion, order). -/
def sortByNext : List RetryRow → List RetryRow
  | [] => []
  | x :: xs => insertByNext x (sortByNext xs)

/-- Database.get_retry_candidates (database.py lines 200-207): rows with
next_retry_at <= now, ordered ascending by next_retry_at. -/
def get_retry_candidates (db : Database) (now : Nat) : List RetryRow :=
  sortByNext (db.retry_queue.filter (fun r => r.next_retry_at ≤ now))

/-- Database.remove_from_retry_queue (database.py lines 209-212): idempotent
DELETE by guid. -/
def remove_from_retry_queue (db : Database) (entry_guid : String) : Database :=
  { db with
    retry_queue := db.retry_queue.filter
      (fun r => !(r.entry_guid == entry_guid)) }

/-- The advisory lock file of PipelineLock (pipeline.py lines 31-75).
holder is the process currently owning the flock, none when unlocked; content
is the parsed decimal payload of the file (str(pid) written by the last
successful acquire), none when the file is empty or holds garbage — the
payload string itself is abstracted to its best-effort int() parse. -/
structure LockFile where
  holder : Option Nat
  content : Option Nat
deriving DecidableEq

/-- PipelineLock.acquire (pipeline.py lines 38-58): non-blocking exclusive
flock.  While another holder owns the flock the call fails with
PipelineLockError carrying the pid recovered from the file payload
(best-effort); on success the file is truncated and the caller pid written. -/
def acquire (lf : LockFile) (pid : Nat) : Except (Option Nat) LockFile :=
  match lf.holder with
  | some _ => .error lf.content
  | none => .ok { holder := some pid, content := some pid }

/-- PipelineLock.release (pipeline.py lines 60-68): unlock and close; the file
content is left behind (it may later be read as a stale pid). -/
def release (lf : LockFile) : LockFile :=
  { lf with holder := none }

/-- Outcome of one SkillRunner.run_skill invocation (skill_runner.py lines
65-141), as seen by the orchestrator loop: a produced note path, or a failed
SkillResult carrying an error message (SkillResult, skill_runner.py lines
11-19, has fields success, note_path, error, stdout, stderr — no permanent
flag), or an exception escaping the invocation (caught by the loop,
pipeline.py line 232). -/
inductive SkillOutcome where
  | success (note_path : String)
  | failure (error : Option String)
  | exn (message : String)

/-- Text of the AttributeError raised when pipeline.py line 213 reads
skill_result.permanent, an attribute SkillResult (skill_runner.py lines
11-19) does not define; rendered without the quote characters of the Python
message. -/
def attributeErrorText : String :=
  "SkillResult object has no attribute permanent"

/-- PipelineResult (pipeline.py lines 78-88). -/
structure PipelineResult where
  processed : Nat := 0
  failed : Nat := 0
  retried : Nat := 0
  skipped : Nat := 0
  permanent_failures : Nat := 0
  created_notes : List String := []
  failures : List (Entry × String) := []
deriving DecidableEq

/-- Observable events of a run that the claims talk about: lock-acquisition
attempts, error and warning logs, and skill invocations for individual items.
(Info-level progress logging is not tracked.) -/
inductive Event where
  | lockAttempt (pid : Nat)
  | errorLog (message : String)
  | warnLog (message : String)
  | skillInvoked (guid : String)
deriving DecidableEq

/-- Guids of the skill invocations recorded in an event trace, in order. -/
def skillInvocations (events : List Event) : List String :=
  events.filterMap (fun ev =>
    match ev with
    | .skillInvoked g => some g
    | _ => none)

/-- Environment of one run: what the external collaborators would answer.
installed_skills models the skills directory consulted by
SkillRunner.validate_skills; feed_entries the union of entries the feed
sources deliver; oracle the outcome of the skill subprocess per entry; now
the wall clock (in hours) for the duration of the run. -/
structure PipelineEnv where
  installed_skills : List String
  feed_entries : List Entry
  oracle : Entry → SkillOutcome
  now : Nat

/-- The skill names required by SkillRunner._skill_config, in its insertion
order (skill_runner.py lines 30-46). -/
def REQUIRED_SKILLS : List String := ["article", "youtube", "podcast"]

/-- SkillRunner.validate_skills (skill_runner.py lines 52-63): names of
required skills missing from the skills directory. -/
def validate_skills (installed : List String) : List String :=
  REQUIRED_SKILLS.filter (fun s => !(installed.contains s))

/-- FeedManager.fetch_new_entries (feed_manager.py lines 70-86): feed entries
whose guid has no ProcessedRecord.  The per-feed download and the swallowing
of individual feed errors happen before this filter and are absorbed into the
feed_entries input. -/
def fetch_new_entries (feed_entries : List Entry) (db : Database) :
    List Entry :=
  feed_entries.filter (fun e => !(is_processed db e.guid))

/-- Reconstruction of an Entry from a retry_queue row (pipeline.py lines
140-154); a missing or empty stored title becomes Untitled like the Python
expression row[entry_title] or Untitled. -/
def rowToEntry (r : RetryRow) : Entry :=
  { guid := r.entry_guid,
    title := match r.entry_title with
      | none => "Untitled"
      | some t => if t = "" then "Untitled" else t,
    url := r.entry_url,
    content := "",
    author := none,
    published_at := none,
    feed_id := r.feed_id,
    feed_title := "",
    category := r.category }

/-- Mutable state of the processing loop: the store, the accumulating
PipelineResult, and the event trace. -/
structure LoopState where
  db : Database
  res : PipelineResult
  events : List Event

/-- One iteration of the processing loop (pipeline.py lines 174-244): skip
already-processed guids (clearing a zombie retry), otherwise invoke the skill
and classify the outcome — success (mark processed, clear retry entry if the
item came from the retry set), or failure / escaped exception (enqueued for
retry, counted failed).  A failed SkillResult reaches line 213, where reading
skill_result.permanent raises AttributeError (SkillResult has no such field),
so the except handler of lines 232-244 enqueues the item with the exception
text: the permanent-failure branch of lines 214-216 is unreachable. -/
def processEntry (oracle : Entry → SkillOutcome) (retry_entries : List Entry)
    (now : Nat) (s : LoopState) (e : Entry) : LoopState :=
  let is_retry : Bool := e ∈ retry_entries
  if is_processed s.db e.guid then
    if is_retry then
      { s with db := remove_from_retry_queue s.db e.guid }
    else s
  else
    let evs := s.events ++ [.skillInvoked e.guid]
    match oracle e with
    | .success note_path =>
      match mark_processed s.db e.guid e.feed_id e.url (some e.title)
          (some note_path) now with
      | .ok db1 =>
        let db2 := if is_retry then remove_from_retry_queue db1 e.guid else db1
        let res1 := if is_retry then { s.res with retried := s.res.retried + 1 }
                    else s.res
        { db := db2
          res := { res1 with
                   created_notes := res1.created_notes ++ [note_path]
                   processed := res1.processed + 1 }
          events := evs }
      | .error msg =>
        { db := add_to_retry_queue s.db e.guid e.feed_id e.url (some e.title)
                  e.category msg now
          res := { s.res with
                   failed := s.res.failed + 1
                   failures := s.res.failures ++ [(e, msg)] }
          events := evs }
    | .failure _error =>
      -- Line 212 binds error_msg from the result, but line 213 then raises
      -- AttributeError before error_msg is ever used; the handler at line
      -- 232 enqueues the item with str(e) of that AttributeError.
      { db := add_to_retry_queue s.db e.guid e.feed_id e.url (some e.title)
                e.category attributeErrorText now
        res := { s.res with
                 failed := s.res.failed + 1
                 failures := s.res.failures ++ [(e, attributeErrorText)] }
        events := evs }
    | .exn msg =>
      { db := add_to_retry_queue s.db e.guid e.feed_id e.url (some e.title)
                e.category msg now
        res := { s.res with
                 failed := s.res.failed + 1
                 failures := s.res.failures ++ [(e, msg)] }
        events := evs }

/-- Output of one orchestrator run. -/
structure RunOutput where
  res : PipelineResult
  db : Database
  events : List Event

/-- The candidate list of a run (pipeline.py lines 156-160): new entries
first, then due retries, truncated to the limit when one is given and smaller
than the combined length. -/
def candidateEntries (new_entries retry_entries : List Entry)
    (limit : Option Nat) : List Entry :=
  let all0 := new_entries ++ retry_entries
  match limit with
  | some l => if l < all0.length then all0.take l else all0
  | none => all0

/-- Catch-up warning of _run_pipeline_inner (pipeline.py lines 126-130):
a warning is logged when more than 36 hours passed since the last
successful run. -/
def catchupEvents (db : Database) (now : Nat) : List Event :=
  match get_last_successful_run db with
  | some t => if 36 < now - t then [.warnLog "Catch-up mode"] else []
  | none => []

/-- _run_pipeline_inner (pipeline.py lines 113-289): validate skills (early
return on missing), log catch-up, start a RunRecord, build the candidate
list, short-circuit on dry run, otherwise fold the processing loop over the
candidates and complete the RunRecord.  The verbose flag only adds info
logging and is dropped; the post-processing stage mutates no store state. -/
def run_pipeline_inner (env : PipelineEnv) (db : Database) (dry_run : Bool)
    (limit : Option Nat) : RunOutput :=
  let missing := validate_skills env.installed_skills
  if missing ≠ [] then
    { res := {}
      db := db
      events := [.errorLog ("Missing required skills: " ++
                   String.intercalate ", " missing),
                 .errorLog "Run setup to install skills"] }
  else
    let catchup_events := catchupEvents db env.now
    let started := record_run_start db env.now
    let run_id := started.1
    let db1 := started.2
    let new_entries := fetch_new_entries env.feed_entries db1
    let retry_rows := get_retry_candidates db1 env.now
    let retry_entries := retry_rows.map rowToEntry
    let all_entries := candidateEntries new_entries retry_entries limit
    if dry_run then
      { res := { skipped := all_entries.length }
        db := db1
        events := catchup_events }
    else
      let final := all_entries.foldl
        (processEntry env.oracle retry_entries env.now)
        { db := db1, res := {}, events := catchup_events }
      let db3 := record_run_complete final.db run_id final.res.processed
        final.res.failed env.now
      { res := final.res, db := db3, events := final.events }

/-- run_pipeline (pipeline.py lines 91-110): a dry run never touches the
lock; otherwise the lock is acquired (a failure aborts with the holder pid
unless force overrides it, in which case the run proceeds without holding the
lock) and released on every exit path. -/
def run_pipeline (env : PipelineEnv) (lf : LockFile) (pid : Nat)
    (db : Database) (dry_run : Bool) (limit : Option Nat) (force : Bool) :
    Except (Option Nat) (RunOutput × LockFile) :=
  if dry_run then
    .ok (run_pipeline_inner env db dry_run limit, lf)
  else
    match acquire lf pid with
    | .ok lf1 =>
      let out := run_pipeline_inner env db dry_run limit
      .ok ({ out with events := .lockAttempt pid :: out.events }, release lf1)
    | .error held =>
      if force then
        let out := run_pipeline_inner env db dry_run limit
        .ok ({ out with
                events := .lockAttempt pid ::
                  .warnLog "Force override" :: out.events }, lf)
      else .error held

/-! ### Concrete instances used by the claim witnesses and
counterexamples -/

/-- The strict order produced for ties broken by rowid: earlier due time
first, equal due times in insertion (id) order. -/
def lexLt (a b : RetryRow) : Prop :=
  a.next_retry_at < b.next_retry_at ∨
    (a.next_retry_at = b.next_retry_at ∧ a.id < b.id)

def mkEntry (g : String) : Entry :=
  { guid := g
    title := g
    url := g
    content := ""
    author := none
    published_at := none
    feed_id := 1
    feed_title := ""
    category := .articles }

def mkRetryRow (i : Nat) (g : String) (next : Nat) : RetryRow :=
  { id := i
    entry_guid := g
    feed_id := 1
    entry_url := g
    entry_title := some g
    category := .articles
    first_failed_at := 0
    last_attempt_at := 0
    next_retry_at := next
    retry_count := 0
    last_error := "boom" }

def dbEmpty : Database :=
  { processed_entries := []
    retry_queue := []
    pipeline_runs := []
    processed_seq := 0
    retry_seq := 0
    run_seq := 0 }

def allSkills : List String := ["article", "youtube", "podcast"]

def dbC4 : Database :=
  { dbEmpty with
    retry_queue := [mkRetryRow 0 "a" 5, mkRetryRow 1 "b" 2, mkRetryRow 2 "c" 5]
    retry_seq := 3 }

def lfFree : LockFile := { holder := none, content := none }

def dbC9 : Database :=
  { dbEmpty with
    pipeline_runs := [{ id := 0, started_at := 0, completed_at := none,
                        items_fetched := 0, items_processed := 0,
                        items_failed := 0, status := .running }]
    run_seq := 1 }

def envMissing : PipelineEnv :=
  { installed_skills := []
    feed_entries := []
    oracle := fun _ => .exn "x"
    now := 0 }

def envC2 : PipelineEnv :=
  { installed_skills := allSkills
    feed_entries := []
    oracle := fun _ => .exn "unused"
    now := 0 }

def addFail (d : Database) (t : Nat) : Database :=
  add_to_retry_queue d "g2" 1 "u2" (some "T2") .articles "err" t

def retryRowG : RetryRow := mkRetryRow 0 "g" 100

def dbC1 : Database :=
  { dbEmpty with retry_queue := [retryRowG], retry_seq := 1 }

def envC1 : PipelineEnv :=
  { installed_skills := allSkills
    feed_entries := [mkEntry "g"]
    oracle := fun _ => .success "note.md"
    now := 0 }

def envC10 : PipelineEnv :=
  { installed_skills := allSkills
    feed_entries := [mkEntry "p"]
    oracle := fun _ => .failure (some "paywall")
    now := 0 }

def dbC5 : Database :=
  { dbEmpty with
    retry_queue := [mkRetryRow 0 "r1" 0, mkRetryRow 1 "r2" 0,
                    mkRetryRow 2 "r3" 0]
    retry_seq := 3 }

def envC5 : PipelineEnv :=
  { installed_skills := allSkills
    feed_entries := [mkEntry "a", mkEntry "b", mkEntry "c", mkEntry "d",
                     mkEntry "e"]
    oracle := fun _ => .success "n.md"
    now := 0 }

/-! ### Elementary facts about the store operations -/

/-- Membership in processed_entries characterises is_processed. -/
theorem is_processed_iff (db : Database) (g : String) :
    is_processed db g = true ↔ g ∈ processedGuids db := by
  simp [is_processed, processedGuids, List.any_eq_true, List.mem_map,
    beq_iff_eq]

/-- Negative form of is_processed_iff. -/
theorem is_processed_false_iff (db : Database) (g : String) :
    is_processed db g = false ↔ g ∉ processedGuids db := by
  rw [← Bool.not_eq_true, is_processed_iff]

/-- mark_processed succeeds exactly on an unprocessed guid, appending one row. -/
theorem mark_processed_ok (db : Database) (g : String) (fid : Nat) (u : String)
    (t : Option String) (np : Option String) (now : Nat)
    (h : is_processed db g = false) :
    mark_processed db g fid u t np now = .ok
      { db with
        processed_entries := db.processed_entries ++
          [{ id := db.processed_seq, entry_guid := g, feed_id := fid,
             entry_url := u, entry_title := t, processed_at := now,
             note_path := np }]
        processed_seq := db.processed_seq + 1 } := by
  simp [mark_processed, h]

/-- remove_from_retry_queue leaves processed_entries and pipeline_runs alone. -/
theorem remove_frame (db : Database) (g : String) :
    (remove_from_retry_queue db g).processed_entries = db.processed_entries ∧
    (remove_from_retry_queue db g).pipeline_runs = db.pipeline_runs ∧
    (remove_from_retry_queue db g).run_seq = db.run_seq ∧
    (remove_from_retry_queue db g).processed_seq = db.processed_seq := by
  simp [remove_from_retry_queue]

/-- After removal the guid is gone from the retry queue. -/
theorem remove_not_mem (db : Database) (g : String) :
    g ∉ retryGuids (remove_from_retry_queue db g) := by
  simp only [retryGuids, remove_from_retry_queue, List.mem_map]
  rintro ⟨r, hr, he⟩
  rw [List.mem_filter] at hr
  simp [he] at hr

/-- Rows with a different guid survive removal. -/
theorem remove_keeps (db : Database) (g : String) (r : RetryRow)
    (hr : r ∈ db.retry_queue) (hne : r.entry_guid ≠ g) :
    r ∈ (remove_from_retry_queue db g).retry_queue := by
  simp only [remove_from_retry_queue]
  rw [List.mem_filter]
  exact ⟨hr, by simp [hne]⟩

/-- add_to_retry_queue leaves processed_entries and pipeline_runs alone. -/
theorem add_frame (db : Database) (g : String) (fid : Nat) (u : String)
    (t : Option String) (cat : Category) (msg : String) (now : Nat) :
    (add_to_retry_queue db g fid u t cat msg now).processed_entries =
      db.processed_entries ∧
    (add_to_retry_queue db g fid u t cat msg now).pipeline_runs =
      db.pipeline_runs ∧
    (add_to_retry_queue db g fid u t cat msg now).run_seq = db.run_seq ∧
    (add_to_retry_queue db g fid u t cat msg now).processed_seq =
      db.processed_seq := by
  unfold add_to_retry_queue
  cases h : retryLookup db g with
  | none => simp
  | some ex => by_cases hge : BACKOFF_HOURS.length ≤ ex.retry_count + 1 <;>
      simp [hge]

/-- Rows with a different guid survive an upsert for guid g. -/
theorem add_keeps (db : Database) (g : String) (fid : Nat) (u : String)
    (t : Option String) (cat : Category) (msg : String) (now : Nat)
    (r : RetryRow) (hr : r ∈ db.retry_queue) (hne : r.entry_guid ≠ g) :
    r ∈ (add_to_retry_queue db g fid u t cat msg now).retry_queue := by
  unfold add_to_retry_queue
  cases h : retryLookup db g with
  | none => simp [List.mem_append, hr]
  | some ex =>
    by_cases hge : BACKOFF_HOURS.length ≤ ex.retry_count + 1
    · simp only [hge, if_true]
      rw [List.mem_filter]
      exact ⟨hr, by simp [hne]⟩
    · simp only [hge, if_false]
      exact List.mem_map.mpr ⟨r, hr, by simp [hne]⟩

/-- record_run_start touches only the pipeline_runs table and its counter. -/
theorem record_run_start_frame (db : Database) (now : Nat) :
    (record_run_start db now).2.processed_entries = db.processed_entries ∧
    (record_run_start db now).2.retry_queue = db.retry_queue ∧
    (record_run_start db now).1 = db.run_seq ∧
    (record_run_start db now).2.pipeline_runs =
      db.pipeline_runs ++
        [{ id := db.run_seq, started_at := now, completed_at := none,
           items_fetched := 0, items_processed := 0, items_failed := 0,
           status := .running }] := by
  simp [record_run_start]

/-- record_run_complete touches only the pipeline_runs table. -/
theorem record_run_complete_frame (db : Database) (rid p f now : Nat) :
    (record_run_complete db rid p f now).processed_entries =
      db.processed_entries ∧
    (record_run_complete db rid p f now).retry_queue = db.retry_queue := by
  simp [record_run_complete]

/-! ### Lookup behaviour of the retry upsert (backoff state machine) -/

/-- find? over a mapped list, for maps that preserve the predicate. -/
theorem find?_map_of_pred {α : Type} (p : α → Bool) (f : α → α) (l : List α)
    (hf : ∀ a, p (f a) = p a) :
    (l.map f).find? p = (l.find? p).map f := by
  induction l with
  | nil => rfl
  | cons x xs ih =>
    by_cases hx : p x
    · rw [List.map_cons, List.find?_cons_of_pos _ (by rw [hf]; exact hx),
        List.find?_cons_of_pos _ hx]
      rfl
    · rw [List.map_cons, List.find?_cons_of_neg _ (by rw [hf]; exact hx),
        List.find?_cons_of_neg _ hx, ih]

/-- A first failure inserts a row with counter 0 due one hour later. -/
theorem add_lookup_none (db : Database) (g : String) (fid : Nat) (u : String)
    (t : Option String) (cat : Category) (msg : String) (now : Nat)
    (h : retryLookup db g = none) :
    retryLookup (add_to_retry_queue db g fid u t cat msg now) g = some
      { id := db.retry_seq, entry_guid := g, feed_id := fid, entry_url := u,
        entry_title := t, category := cat, first_failed_at := now,
        last_attempt_at := now, next_retry_at := now + 1, retry_count := 0,
        last_error := msg } := by
  unfold add_to_retry_queue
  rw [h]
  unfold retryLookup at h ⊢
  simp only [List.find?_append, h, Option.none_or]
  simp [BACKOFF_HOURS]

/-- A repeated failure below the schedule bound increments the counter and
reschedules the existing row. -/
theorem add_lookup_some (db : Database) (g : String) (fid : Nat) (u : String)
    (t : Option String) (cat : Category) (msg : String) (now : Nat)
    (ex : RetryRow) (h : retryLookup db g = some ex)
    (hlt : ex.retry_count + 1 < BACKOFF_HOURS.length) :
    retryLookup (add_to_retry_queue db g fid u t cat msg now) g = some
      { ex with retry_count := ex.retry_count + 1, last_attempt_at := now,
                next_retry_at := now +
                  BACKOFF_HOURS.getD (ex.retry_count + 1) 0,
                last_error := msg } := by
  unfold add_to_retry_queue
  rw [h]
  simp only [Nat.not_le.mpr hlt, if_false]
  unfold retryLookup at h ⊢
  rw [find?_map_of_pred _ _ _ (fun a => by by_cases ha : a.entry_guid == g <;>
    simp [ha])]
  rw [h]
  have hg := List.find?_some h
  simp only [beq_iff_eq] at hg
  simp [hg]

/-- A repeated failure reaching the schedule bound deletes the row. -/
theorem add_lookup_giveup (db : Database) (g : String) (fid : Nat) (u : String)
    (t : Option String) (cat : Category) (msg : String) (now : Nat)
    (ex : RetryRow) (h : retryLookup db g = some ex)
    (hge : BACKOFF_HOURS.length ≤ ex.retry_count + 1) :
    retryLookup (add_to_retry_queue db g fid u t cat msg now) g = none := by
  unfold add_to_retry_queue
  rw [h]
  simp only [hge, if_true]
  unfold retryLookup
  rw [List.find?_eq_none]
  intro r hr
  rw [List.mem_filter] at hr
  simpa using hr.2

/-! ### The stable sort embedding ORDER BY next_retry_at -/

/-- Membership is preserved by stable insertion. -/
theorem mem_insertByNext (a r : RetryRow) (l : List RetryRow) :
    a ∈ insertByNext r l ↔ a = r ∨ a ∈ l := by
  induction l with
  | nil => simp [insertByNext]
  | cons x xs ih =>
    unfold insertByNext
    by_cases hle : r.next_retry_at ≤ x.next_retry_at
    · simp [hle]
    · simp only [hle, if_false, List.mem_cons, ih]
      tauto

/-- Membership is preserved by the stable sort. -/
theorem mem_sortByNext (a : RetryRow) (l : List RetryRow) :
    a ∈ sortByNext l ↔ a ∈ l := by
  induction l with
  | nil => simp [sortByNext]
  | cons x xs ih =>
    unfold sortByNext
    rw [mem_insertByNext, ih, List.mem_cons]


/-- Stable insertion of a row whose id is below every id in the list keeps
the list lexicographically sorted. -/
theorem pairwise_lex_insertByNext (r : RetryRow) (l : List RetryRow)
    (hl : l.Pairwise lexLt) (hid : ∀ y ∈ l, r.id < y.id) :
    (insertByNext r l).Pairwise lexLt := by
  induction l with
  | nil => simp [insertByNext]
  | cons x xs ih =>
    rw [List.pairwise_cons] at hl
    unfold insertByNext
    by_cases hle : r.next_retry_at ≤ x.next_retry_at
    · simp only [hle, if_true]
      rw [List.pairwise_cons]
      constructor
      · intro z hz
        rcases List.mem_cons.mp hz with hz | hz
        · subst hz
          rcases Nat.lt_or_ge r.next_retry_at z.next_retry_at with h | h
          · exact Or.inl h
          · exact Or.inr ⟨Nat.le_antisymm hle h, hid z (List.mem_cons_self _ _)⟩
        · have hxz : lexLt x z := hl.1 z hz
          have hxznext : x.next_retry_at ≤ z.next_retry_at := by
            rcases hxz with h | h
            · exact Nat.le_of_lt h
            · exact Nat.le_of_eq h.1
          have hrz : r.next_retry_at ≤ z.next_retry_at :=
            Nat.le_trans hle hxznext
          rcases Nat.lt_or_ge r.next_retry_at z.next_retry_at with h | h
          · exact Or.inl h
          · exact Or.inr ⟨Nat.le_antisymm hrz h,
              hid z (List.mem_cons_of_mem _ hz)⟩
      · exact List.pairwise_cons.mpr hl
    · simp only [hle, if_false]
      rw [List.pairwise_cons]
      constructor
      · intro z hz
        rcases (mem_insertByNext z r xs).mp hz with hz | hz
        · subst hz
          exact Or.inl (Nat.lt_of_not_le hle)
        · exact hl.1 z hz
      · exact ih hl.2 (fun y hy => hid y (List.mem_cons_of_mem _ hy))

/-- Sorting a list whose ids increase left to right produces a
lexicographically sorted list. -/
theorem pairwise_lex_sortByNext (l : List RetryRow)
    (h : l.Pairwise (fun a b => a.id < b.id)) :
    (sortByNext l).Pairwise lexLt := by
  induction l with
  | nil => simp [sortByNext]
  | cons x xs ih =>
    rw [List.pairwise_cons] at h
    unfold sortByNext
    exact pairwise_lex_insertByNext x (sortByNext xs) (ih h.2)
      (fun y hy => h.1 y ((mem_sortByNext y xs).mp hy))

/-! ### Invariants of one processing-loop iteration -/

theorem processEntry_frame (o : Entry → SkillOutcome) (re : List Entry)
    (now : Nat) (s : LoopState) (e : Entry) :
    (processEntry o re now s e).db.pipeline_runs = s.db.pipeline_runs ∧
    (processEntry o re now s e).db.run_seq = s.db.run_seq := by
  unfold processEntry
  by_cases hp : is_processed s.db e.guid
  · by_cases hr : e ∈ re <;> simp [hp, hr, remove_from_retry_queue]
  · have hp' : is_processed s.db e.guid = false := by simpa using hp
    cases ho : o e with
    | success np =>
      simp only [hp', Bool.false_eq_true, if_false, ho,
        mark_processed_ok s.db e.guid e.feed_id e.url (some e.title) (some np)
          now hp']
      by_cases hr : e ∈ re <;> simp [hr, remove_from_retry_queue]
    | failure err =>
      simp [hp', ho, (add_frame s.db e.guid e.feed_id e.url (some e.title)
        e.category attributeErrorText now).2.1,
        (add_frame s.db e.guid e.feed_id e.url (some e.title)
        e.category attributeErrorText now).2.2.1]
    | exn m =>
      simp [hp', ho, (add_frame s.db e.guid e.feed_id e.url (some e.title)
        e.category m now).2.1,
        (add_frame s.db e.guid e.feed_id e.url (some e.title)
        e.category m now).2.2.1]

theorem processEntry_retry_keeps (o : Entry → SkillOutcome) (re : List Entry)
    (now : Nat) (s : LoopState) (e : Entry) (r : RetryRow)
    (hr : r ∈ s.db.retry_queue) (hne : r.entry_guid ≠ e.guid) :
    r ∈ (processEntry o re now s e).db.retry_queue := by
  unfold processEntry
  by_cases hp : is_processed s.db e.guid
  · by_cases hmem : e ∈ re <;> simp [hp, hmem]
    · exact remove_keeps s.db e.guid r hr hne
    · exact hr
  · have hp' : is_processed s.db e.guid = false := by simpa using hp
    cases ho : o e with
    | success np =>
      simp only [hp', Bool.false_eq_true, if_false, ho,
        mark_processed_ok s.db e.guid e.feed_id e.url (some e.title) (some np)
          now hp']
      by_cases hmem : e ∈ re <;> simp [hmem]
      · exact remove_keeps _ e.guid r hr hne
      · exact hr
    | failure err =>
      simp [hp', ho]
      exact add_keeps s.db e.guid e.feed_id e.url (some e.title) e.category
        attributeErrorText now r hr hne
    | exn m =>
      simp [hp', ho]
      exact add_keeps s.db e.guid e.feed_id e.url (some e.title) e.category
        m now r hr hne

theorem processEntry_processed_cases (o : Entry → SkillOutcome)
    (re : List Entry) (now : Nat) (s : LoopState) (e : Entry) :
    (processEntry o re now s e).db.processed_entries =
      s.db.processed_entries ∨
    (is_processed s.db e.guid = false ∧
      (processEntry o re now s e).db.processed_entries =
        s.db.processed_entries ++
          [{ id := s.db.processed_seq, entry_guid := e.guid,
             feed_id := e.feed_id, entry_url := e.url,
             entry_title := some e.title, processed_at := now,
             note_path := some ((fun x => match x with
               | .success np => np
               | _ => "") (o e)) }]) := by
  unfold processEntry
  by_cases hp : is_processed s.db e.guid
  · by_cases hmem : e ∈ re <;> simp [hp, hmem, remove_from_retry_queue]
  · have hp' : is_processed s.db e.guid = false := by simpa using hp
    cases ho : o e with
    | success np =>
      refine Or.inr ⟨hp', ?_⟩
      simp only [hp', Bool.false_eq_true, if_false, ho,
        mark_processed_ok s.db e.guid e.feed_id e.url (some e.title) (some np)
          now hp']
      by_cases hmem : e ∈ re <;> simp [hmem, remove_from_retry_queue]
    | failure err =>
      simp [hp', ho, (add_frame s.db e.guid e.feed_id e.url (some e.title)
        e.category attributeErrorText now).1]
    | exn m =>
      simp [hp', ho, (add_frame s.db e.guid e.feed_id e.url (some e.title)
        e.category m now).1]

theorem processEntry_events_skip (o : Entry → SkillOutcome) (re : List Entry)
    (now : Nat) (s : LoopState) (e : Entry)
    (hp : is_processed s.db e.guid = true) :
    (processEntry o re now s e).events = s.events := by
  unfold processEntry
  by_cases hmem : e ∈ re <;> simp [hp, hmem]

theorem processEntry_events_invoke (o : Entry → SkillOutcome)
    (re : List Entry) (now : Nat) (s : LoopState) (e : Entry)
    (hp : is_processed s.db e.guid = false) :
    (processEntry o re now s e).events =
      s.events ++ [.skillInvoked e.guid] := by
  unfold processEntry
  cases ho : o e with
  | success np =>
    simp only [hp, Bool.false_eq_true, if_false, ho,
      mark_processed_ok s.db e.guid e.feed_id e.url (some e.title) (some np)
        now hp]
  | failure err =>
    simp [hp, ho]
  | exn m =>
    simp [hp, ho]

theorem processEntry_classification (o : Entry → SkillOutcome)
    (re : List Entry) (now : Nat) (s : LoopState) (e : Entry) :
    ((processEntry o re now s e).res.processed = s.res.processed + 1 ∧
     (processEntry o re now s e).res.failed = s.res.failed ∧
     (processEntry o re now s e).res.permanent_failures =
       s.res.permanent_failures) ∨
    ((processEntry o re now s e).res.failed = s.res.failed + 1 ∧
     (processEntry o re now s e).res.processed = s.res.processed ∧
     (processEntry o re now s e).res.permanent_failures =
       s.res.permanent_failures) ∨
    ((processEntry o re now s e).res.permanent_failures =
       s.res.permanent_failures + 1 ∧
     (processEntry o re now s e).res.processed = s.res.processed ∧
     (processEntry o re now s e).res.failed = s.res.failed) ∨
    ((processEntry o re now s e).res = s.res ∧
     is_processed s.db e.guid = true) := by
  unfold processEntry
  by_cases hp : is_processed s.db e.guid
  · by_cases hmem : e ∈ re <;> simp [hp, hmem]
  · have hp' : is_processed s.db e.guid = false := by simpa using hp
    cases ho : o e with
    | success np =>
      refine Or.inl ?_
      simp only [hp', Bool.false_eq_true, if_false, ho,
        mark_processed_ok s.db e.guid e.feed_id e.url (some e.title) (some np)
          now hp']
      by_cases hmem : e ∈ re <;> simp [hmem]
    | failure err =>
      exact Or.inr (Or.inl (by simp [hp', ho]))
    | exn m =>
      exact Or.inr (Or.inl (by simp [hp', ho]))

theorem processEntry_no_coexistence (o : Entry → SkillOutcome)
    (re : List Entry) (now : Nat) (s : LoopState) (e : Entry)
    (hre : e ∈ re) :
    ¬ (e.guid ∈ processedGuids (processEntry o re now s e).db ∧
       e.guid ∈ retryGuids (processEntry o re now s e).db) := by
  unfold processEntry
  by_cases hp : is_processed s.db e.guid
  · simp only [hp, if_true, hre, decide_True]
    rintro ⟨-, habs⟩
    exact remove_not_mem s.db e.guid (by simpa using habs)
  · have hp' : is_processed s.db e.guid = false := by simpa using hp
    cases ho : o e with
    | success np =>
      simp only [hp', Bool.false_eq_true, if_false, ho,
        mark_processed_ok s.db e.guid e.feed_id e.url (some e.title) (some np)
          now hp', hre, decide_True, if_true]
      rintro ⟨-, habs⟩
      exact remove_not_mem _ e.guid (by simpa using habs)
    | failure err =>
      have hnp : e.guid ∉ processedGuids s.db :=
        (is_processed_false_iff s.db e.guid).mp hp'
      rintro ⟨habs, -⟩
      refine hnp ?_
      have hpe := (add_frame s.db e.guid e.feed_id e.url (some e.title)
        e.category attributeErrorText now).1
      simp only [hp', Bool.false_eq_true, if_false, ho] at habs
      simpa [processedGuids, hpe] using habs
    | exn m =>
      rintro ⟨habs, -⟩
      have hnp : e.guid ∉ processedGuids s.db :=
        (is_processed_false_iff s.db e.guid).mp hp'
      refine hnp ?_
      have hpe := (add_frame s.db e.guid e.feed_id e.url (some e.title)
        e.category m now).1
      simp only [hp', Bool.false_eq_true, if_false, ho] at habs
      simpa [processedGuids, hpe] using habs

theorem processEntry_nodup (o : Entry → SkillOutcome) (re : List Entry)
    (now : Nat) (s : LoopState) (e : Entry)
    (h : (processedGuids s.db).Nodup) :
    (processedGuids (processEntry o re now s e).db).Nodup := by
  rcases processEntry_processed_cases o re now s e with hc | ⟨hp, hc⟩
  · have : processedGuids (processEntry o re now s e).db =
        processedGuids s.db := by simp [processedGuids, hc]
    rwa [this]
  · have hmem : e.guid ∉ processedGuids s.db :=
      (is_processed_false_iff s.db e.guid).mp hp
    have : processedGuids (processEntry o re now s e).db =
        processedGuids s.db ++ [e.guid] := by simp [processedGuids, hc]
    rw [this]
    exact List.Nodup.append h (List.nodup_singleton _)
      (fun a ha hb => hmem (by simpa [List.mem_singleton.mp hb] using ha))

theorem processEntry_processed_bound (o : Entry → SkillOutcome)
    (re : List Entry) (now : Nat) (s : LoopState) (e : Entry) (g : String)
    (h : g ∈ processedGuids (processEntry o re now s e).db) :
    g ∈ processedGuids s.db ∨ g = e.guid := by
  rcases processEntry_processed_cases o re now s e with hc | ⟨-, hc⟩
  · exact Or.inl (by simpa [processedGuids, hc] using h)
  · have := h
    rw [processedGuids, hc, List.map_append] at this
    rcases List.mem_append.mp this with hmem | hmem
    · exact Or.inl hmem
    · simp at hmem
      exact Or.inr hmem

theorem loop_frame (o : Entry → SkillOutcome) (re : List Entry) (now : Nat)
    (l : List Entry) (s : LoopState) :
    (List.foldl (processEntry o re now) s l).db.pipeline_runs =
      s.db.pipeline_runs ∧
    (List.foldl (processEntry o re now) s l).db.run_seq = s.db.run_seq := by
  induction l generalizing s with
  | nil => exact ⟨rfl, rfl⟩
  | cons e es ih =>
    rw [List.foldl_cons]
    rcases ih (processEntry o re now s e) with ⟨h1, h2⟩
    rcases processEntry_frame o re now s e with ⟨h3, h4⟩
    exact ⟨h1.trans h3, h2.trans h4⟩

theorem loop_retry_keeps (o : Entry → SkillOutcome) (re : List Entry)
    (now : Nat) (l : List Entry) (s : LoopState) (r : RetryRow)
    (hr : r ∈ s.db.retry_queue) (hne : ∀ e ∈ l, r.entry_guid ≠ e.guid) :
    r ∈ (List.foldl (processEntry o re now) s l).db.retry_queue := by
  induction l generalizing s with
  | nil => exact hr
  | cons e es ih =>
    rw [List.foldl_cons]
    exact ih (processEntry o re now s e)
      (processEntry_retry_keeps o re now s e r hr
        (hne e (List.mem_cons_self _ _)))
      (fun x hx => hne x (List.mem_cons_of_mem _ hx))

theorem loop_processed_bound (o : Entry → SkillOutcome) (re : List Entry)
    (now : Nat) (l : List Entry) (s : LoopState) (g : String)
    (h : g ∈ processedGuids (List.foldl (processEntry o re now) s l).db) :
    g ∈ processedGuids s.db ∨ g ∈ l.map (fun e => e.guid) := by
  induction l generalizing s with
  | nil => exact Or.inl h
  | cons e es ih =>
    rw [List.foldl_cons] at h
    rcases ih (processEntry o re now s e) h with hmem | hmem
    · rcases processEntry_processed_bound o re now s e g hmem with hg | hg
      · exact Or.inl hg
      · exact Or.inr (by simp [hg])
    · exact Or.inr (by simp [hmem])

theorem loop_nodup (o : Entry → SkillOutcome) (re : List Entry) (now : Nat)
    (l : List Entry) (s : LoopState) (h : (processedGuids s.db).Nodup) :
    (processedGuids (List.foldl (processEntry o re now) s l).db).Nodup := by
  induction l generalizing s with
  | nil => exact h
  | cons e es ih =>
    rw [List.foldl_cons]
    exact ih (processEntry o re now s e) (processEntry_nodup o re now s e h)

theorem loop_events_exact (o : Entry → SkillOutcome) (re : List Entry)
    (now : Nat) (l : List Entry) (s : LoopState)
    (hunp : ∀ e ∈ l, is_processed s.db e.guid = false)
    (hnd : (l.map (fun e => e.guid)).Nodup) :
    (List.foldl (processEntry o re now) s l).events =
      s.events ++ l.map (fun e => Event.skillInvoked e.guid) := by
  induction l generalizing s with
  | nil => simp
  | cons e es ih =>
    rw [List.foldl_cons]
    rw [List.map_cons] at hnd
    have hnd' := List.nodup_cons.mp hnd
    have hstep := processEntry_events_invoke o re now s e
      (hunp e (List.mem_cons_self _ _))
    have htail : ∀ x ∈ es,
        is_processed (processEntry o re now s e).db x.guid = false := by
      intro x hx
      rw [is_processed_false_iff]
      intro habs
      rcases processEntry_processed_bound o re now s e x.guid habs with hg | hg
      · have := (is_processed_false_iff s.db x.guid).mp
          (by exact hunp x (List.mem_cons_of_mem _ hx))
        exact this hg
      · exact hnd'.1 (hg ▸ List.mem_map_of_mem (fun y => y.guid) hx)
    rw [ih (processEntry o re now s e) htail hnd'.2, hstep]
    simp

theorem loop_processed_keeps (o : Entry → SkillOutcome) (re : List Entry)
    (now : Nat) (l : List Entry) (s : LoopState) (pr : ProcessedRow)
    (hpr : pr ∈ s.db.processed_entries) :
    pr ∈ (List.foldl (processEntry o re now) s l).db.processed_entries := by
  induction l generalizing s with
  | nil => exact hpr
  | cons e es ih =>
    rw [List.foldl_cons]
    refine ih (processEntry o re now s e) ?_
    rcases processEntry_processed_cases o re now s e with hc | ⟨-, hc⟩
    · rwa [hc]
    · rw [hc]
      exact List.mem_append_left _ hpr

/-! ### Unfolding the orchestrator run -/

theorem fetch_after_run_start (fs : List Entry) (db : Database) (t : Nat) :
    fetch_new_entries fs (record_run_start db t).2 = fetch_new_entries fs db :=
  rfl

theorem candidates_after_run_start (db : Database) (t now : Nat) :
    get_retry_candidates (record_run_start db t).2 now =
      get_retry_candidates db now :=
  rfl

theorem run_inner_missing (env : PipelineEnv) (db : Database) (dry : Bool)
    (limit : Option Nat) (h : validate_skills env.installed_skills ≠ []) :
    run_pipeline_inner env db dry limit =
      { res := {}
        db := db
        events := [.errorLog ("Missing required skills: " ++
                     String.intercalate ", "
                       (validate_skills env.installed_skills)),
                   .errorLog "Run setup to install skills"] } := by
  simp [run_pipeline_inner, h]

theorem run_start_fst (db : Database) (t : Nat) :
    (record_run_start db t).1 = db.run_seq :=
  rfl

theorem run_inner_dry (env : PipelineEnv) (db : Database) (limit : Option Nat)
    (h : validate_skills env.installed_skills = []) :
    run_pipeline_inner env db true limit =
      { res := { skipped := (candidateEntries
          (fetch_new_entries env.feed_entries db)
          ((get_retry_candidates db env.now).map rowToEntry) limit).length }
        db := (record_run_start db env.now).2
        events := catchupEvents db env.now } := by
  simp [run_pipeline_inner, h, fetch_after_run_start, candidates_after_run_start]

theorem run_inner_go (env : PipelineEnv) (db : Database) (limit : Option Nat)
    (h : validate_skills env.installed_skills = []) :
    run_pipeline_inner env db false limit =
      { res := (List.foldl (processEntry env.oracle
            ((get_retry_candidates db env.now).map rowToEntry) env.now)
            { db := (record_run_start db env.now).2
              res := {}
              events := catchupEvents db env.now }
            (candidateEntries (fetch_new_entries env.feed_entries db)
              ((get_retry_candidates db env.now).map rowToEntry) limit)).res
        db := record_run_complete
          (List.foldl (processEntry env.oracle
            ((get_retry_candidates db env.now).map rowToEntry) env.now)
            { db := (record_run_start db env.now).2
              res := {}
              events := catchupEvents db env.now }
            (candidateEntries (fetch_new_entries env.feed_entries db)
              ((get_retry_candidates db env.now).map rowToEntry) limit)).db
          db.run_seq
          (List.foldl (processEntry env.oracle
            ((get_retry_candidates db env.now).map rowToEntry) env.now)
            { db := (record_run_start db env.now).2
              res := {}
              events := catchupEvents db env.now }
            (candidateEntries (fetch_new_entries env.feed_entries db)
              ((get_retry_candidates db env.now).map rowToEntry) limit)).res.processed
          (List.foldl (processEntry env.oracle
            ((get_retry_candidates db env.now).map rowToEntry) env.now)
            { db := (record_run_start db env.now).2
              res := {}
              events := catchupEvents db env.now }
            (candidateEntries (fetch_new_entries env.feed_entries db)
              ((get_retry_candidates db env.now).map rowToEntry) limit)).res.failed
          env.now
        events := (List.foldl (processEntry env.oracle
            ((get_retry_candidates db env.now).map rowToEntry) env.now)
            { db := (record_run_start db env.now).2
              res := {}
              events := catchupEvents db env.now }
            (candidateEntries (fetch_new_entries env.feed_entries db)
              ((get_retry_candidates db env.now).map rowToEntry) limit)).events } := by
  simp [run_pipeline_inner, h, fetch_after_run_start, candidates_after_run_start,
    run_start_fst]


/-! ### The claims -/

/-- C4: get_retry_candidates returns exactly the retry rows due at the given
time (next_retry_at ≤ now), ordered ascending by next_retry_at with ties
broken by insertion (rowid) order. -/
theorem c4_retry_eligibility (db : Database) (now : Nat)
    (hid : db.retry_queue.Pairwise (fun a b => a.id < b.id)) :
    (∀ r : RetryRow, r ∈ get_retry_candidates db now ↔
      (r ∈ db.retry_queue ∧ r.next_retry_at ≤ now)) ∧
    (get_retry_candidates db now).Pairwise lexLt := by
  constructor
  · intro r
    rw [get_retry_candidates, mem_sortByNext, List.mem_filter]
    simp
  · exact pairwise_lex_sortByNext _ (List.Pairwise.filter _ hid)

/-- Witness for C4 at a concrete queue with a due tie, a due singleton and
rows filtered by the due check. -/
theorem c4_retry_eligibility_witness :
    (∀ r : RetryRow, r ∈ get_retry_candidates dbC4 3 ↔
      (r ∈ dbC4.retry_queue ∧ r.next_retry_at ≤ 3)) ∧
    (get_retry_candidates dbC4 3).Pairwise lexLt :=
  c4_retry_eligibility dbC4 3 (by decide)

/-- C6: while a first holder has the lock, a second acquire fails carrying
the first holder's pid recovered from the lock-file payload; after release a
new acquire succeeds and writes the new holder's pid. -/
theorem c6_lock_exclusivity (lf : LockFile) (pid1 pid2 : Nat)
    (h : lf.holder = none) :
    acquire lf pid1 = .ok { holder := some pid1, content := some pid1 } ∧
    acquire { holder := some pid1, content := some pid1 } pid2 =
      .error (some pid1) ∧
    acquire (release { holder := some pid1, content := some pid1 }) pid2 =
      .ok { holder := some pid2, content := some pid2 } := by
  simp [acquire, release, h]

/-- Witness for C6 on a fresh lock file with pids 41 and 42. -/
theorem c6_lock_exclusivity_witness :
    acquire lfFree 41 = .ok { holder := some 41, content := some 41 } ∧
    acquire { holder := some 41, content := some 41 } 42 =
      .error (some 41) ∧
    acquire (release { holder := some 41, content := some 41 }) 42 =
      .ok { holder := some 42, content := some 42 } :=
  c6_lock_exclusivity lfFree 41 42 rfl

/-- C8: a run whose skill validation finds missing capabilities returns
before touching any item: the store (in particular pipeline_runs) is
unchanged, the result is empty, an error naming the missing skills is
logged, and no skill invocation happens. -/
theorem c8_missing_capability (env : PipelineEnv) (db : Database)
    (dry : Bool) (limit : Option Nat)
    (h : validate_skills env.installed_skills ≠ []) :
    (run_pipeline_inner env db dry limit).db = db ∧
    (run_pipeline_inner env db dry limit).res = {} ∧
    Event.errorLog ("Missing required skills: " ++ String.intercalate ", "
        (validate_skills env.installed_skills)) ∈
      (run_pipeline_inner env db dry limit).events ∧
    (∀ g, Event.skillInvoked g ∉ (run_pipeline_inner env db dry limit).events) ∧
    (run_pipeline_inner env db dry limit).db.pipeline_runs =
      db.pipeline_runs := by
  rw [run_inner_missing env db dry limit h]
  refine ⟨rfl, rfl, ?_, ?_, rfl⟩ <;> simp

/-- Witness for C8: with no skills installed the run aborts untouched. -/
theorem c8_missing_capability_witness :
    (run_pipeline_inner envMissing dbEmpty false none).db = dbEmpty ∧
    (run_pipeline_inner envMissing dbEmpty false none).res = {} ∧
    Event.errorLog ("Missing required skills: " ++ String.intercalate ", "
        (validate_skills envMissing.installed_skills)) ∈
      (run_pipeline_inner envMissing dbEmpty false none).events ∧
    (∀ g, Event.skillInvoked g ∉
      (run_pipeline_inner envMissing dbEmpty false none).events) ∧
    (run_pipeline_inner envMissing dbEmpty false none).db.pipeline_runs =
      dbEmpty.pipeline_runs :=
  c8_missing_capability envMissing dbEmpty false none (by decide)

/-- C9 counterexample: completing a run id that does not exist is a silent
no-op — the store is returned unchanged and no RunRecord transitions to
completed; the embedded operation (like the SQL UPDATE it models) has no
error channel at all, contradicting the claim that a missing runId is
signaled as an error. -/
theorem c9_counterexample :
    record_run_complete dbC9 7 3 1 10 = dbC9 ∧
    (∀ r ∈ (record_run_complete dbC9 7 3 1 10).pipeline_runs,
      r.status ≠ RunStatus.completed) := by
  refine ⟨by decide, by decide⟩

/-- C9 amended: record_run_complete updates exactly the rows whose id equals
the given run id (stamping completion time, counts and completed status,
regardless of prior status) and leaves every other row unchanged; when no
row carries the id the store is returned unchanged, with no error
signalled. -/
theorem c9_amended (db : Database) (rid p f now : Nat) :
    ((∀ r ∈ db.pipeline_runs, r.id ≠ rid) →
      record_run_complete db rid p f now = db) ∧
    (∀ row ∈ db.pipeline_runs, row.id = rid →
      { row with completed_at := some now, items_processed := p,
                 items_failed := f, status := RunStatus.completed } ∈
        (record_run_complete db rid p f now).pipeline_runs) ∧
    (∀ other ∈ db.pipeline_runs, other.id ≠ rid →
      other ∈ (record_run_complete db rid p f now).pipeline_runs) := by
  refine ⟨?_, ?_, ?_⟩
  · intro h
    have hmap : db.pipeline_runs.map (fun r =>
        if r.id = rid then
          { r with completed_at := some now, items_processed := p,
                   items_failed := f, status := RunStatus.completed }
        else r) = db.pipeline_runs := by
      rw [List.map_congr_left (g := id) (fun a ha => by
        simp [h a ha]), List.map_id]
    simp [record_run_complete, hmap]
  · intro row hrow hid
    unfold record_run_complete
    exact List.mem_map.mpr ⟨row, hrow, by simp [hid]⟩
  · intro other hother hid
    unfold record_run_complete
    exact List.mem_map.mpr ⟨other, hother, by simp [hid]⟩

/-- Witness for C9 amended: completing the existing run id 0 stamps that row;
the missing id 7 leaves the concrete store unchanged. -/
theorem c9_amended_witness :
    ({ id := 0, started_at := 0, completed_at := some 10, items_fetched := 0,
       items_processed := 3, items_failed := 1,
       status := RunStatus.completed } : RunRow) ∈
      (record_run_complete dbC9 0 3 1 10).pipeline_runs ∧
    record_run_complete dbC9 7 3 1 10 = dbC9 :=
  ⟨by
    have h := (c9_amended dbC9 0 3 1 10).2.1
      { id := 0, started_at := 0, completed_at := none, items_fetched := 0,
        items_processed := 0, items_failed := 0, status := RunStatus.running }
      (by decide) rfl
    simpa using h,
   (c9_amended dbC9 7 3 1 10).1 (by decide)⟩

/-- C2 counterexample: a dry run does mutate the RunRecord table — a fresh
running row is inserted before the dry-run short circuit, refuting the claim
that no RunRecord row is created. -/
theorem c2_counterexample :
    (run_pipeline_inner envC2 dbEmpty true none).db.pipeline_runs ≠
      dbEmpty.pipeline_runs := by
  decide

/-- Events logged before the run loop never contain a lock attempt. -/
theorem catchup_no_lock (db : Database) (now pid : Nat) :
    Event.lockAttempt pid ∉ catchupEvents db now := by
  unfold catchupEvents
  cases get_last_successful_run db with
  | none => simp
  | some t => by_cases h : 36 < now - t <;> simp [h]

/-- C2 amended: a dry run never touches the lock (no acquisition attempt, the
lock file is returned unchanged), mutates neither processed_entries nor
retry_queue, and reports a skipped count equal to the candidate count; it
does however insert one RunRecord row with status running (never completed),
contrary to the original claim. -/
theorem c2_amended (env : PipelineEnv) (lf : LockFile) (pid : Nat)
    (db : Database) (limit : Option Nat) (force : Bool)
    (h : validate_skills env.installed_skills = []) :
    ∃ out, run_pipeline env lf pid db true limit force = .ok (out, lf) ∧
      out.db.processed_entries = db.processed_entries ∧
      out.db.retry_queue = db.retry_queue ∧
      out.db.pipeline_runs = db.pipeline_runs ++
        [{ id := db.run_seq, started_at := env.now, completed_at := none,
           items_fetched := 0, items_processed := 0, items_failed := 0,
           status := .running }] ∧
      (∀ p, Event.lockAttempt p ∉ out.events) ∧
      out.res.skipped = (candidateEntries
        (fetch_new_entries env.feed_entries db)
        ((get_retry_candidates db env.now).map rowToEntry) limit).length ∧
      out.res.processed = 0 ∧ out.res.failed = 0 ∧ out.res.retried = 0 ∧
      out.res.permanent_failures = 0 := by
  refine ⟨run_pipeline_inner env db true limit, ?_, ?_⟩
  · simp [run_pipeline]
  · rw [run_inner_dry env db limit h]
    refine ⟨rfl, rfl, rfl, ?_, rfl, rfl, rfl, rfl, rfl⟩
    intro p
    exact catchup_no_lock db env.now p

/-- Witness for C2 amended at a concrete empty store. -/
theorem c2_amended_witness :
    ∃ out, run_pipeline envC2 lfFree 9 dbEmpty true none false =
        .ok (out, lfFree) ∧
      out.db.processed_entries = dbEmpty.processed_entries ∧
      out.db.retry_queue = dbEmpty.retry_queue ∧
      out.db.pipeline_runs = dbEmpty.pipeline_runs ++
        [{ id := dbEmpty.run_seq, started_at := envC2.now,
           completed_at := none, items_fetched := 0, items_processed := 0,
           items_failed := 0, status := .running }] ∧
      (∀ p, Event.lockAttempt p ∉ out.events) ∧
      out.res.skipped = (candidateEntries
        (fetch_new_entries envC2.feed_entries dbEmpty)
        ((get_retry_candidates dbEmpty envC2.now).map rowToEntry) none).length ∧
      out.res.processed = 0 ∧ out.res.failed = 0 ∧ out.res.retried = 0 ∧
      out.res.permanent_failures = 0 :=
  c2_amended envC2 lfFree 9 dbEmpty none false (by decide)

/-- C3 counterexample: against the schedule of length 4, the guid is still in
the retry queue after its 4th consecutive transient failure (with counter 3
and the full schedule consumed); deletion only happens on the 5th failure,
refuting the claim that the 4th failure deletes the entry. -/
theorem c3_counterexample :
    (retryLookup (addFail (addFail (addFail (addFail dbEmpty 0) 1) 2) 3)
        "g2").map (fun r => (r.retry_count, r.next_retry_at)) =
      some (3, 27) ∧
    retryLookup (addFail (addFail (addFail (addFail (addFail dbEmpty 0) 1) 2)
      3) 4) "g2" = none := by
  refine ⟨by decide, by decide⟩

/-- C3 amended: over consecutive transient failures of one guid at
non-decreasing times, each of the first four failures stores
next_retry_at = failure time + schedule[attempt] (attempt counter 0..3,
schedule 1h, 4h, 12h, 24h hours), these due times strictly increase, and the
5th failure — when the incremented counter reaches the schedule length —
deletes the RetryEntry, never creating a ProcessedRecord. -/
theorem c3_amended (db : Database) (g : String) (fid : Nat) (u : String)
    (ti : Option String) (cat : Category) (m1 m2 m3 m4 m5 : String)
    (t1 t2 t3 t4 t5 : Nat) (h0 : retryLookup db g = none)
    (h12 : t1 ≤ t2) (h23 : t2 ≤ t3) (h34 : t3 ≤ t4) :
    ((retryLookup (add_to_retry_queue db g fid u ti cat m1 t1) g).map
        (fun r => (r.retry_count, r.next_retry_at)) = some (0, t1 + 1)) ∧
    ((retryLookup (add_to_retry_queue (add_to_retry_queue db g fid u ti cat
        m1 t1) g fid u ti cat m2 t2) g).map
        (fun r => (r.retry_count, r.next_retry_at)) = some (1, t2 + 4)) ∧
    ((retryLookup (add_to_retry_queue (add_to_retry_queue (add_to_retry_queue
        db g fid u ti cat m1 t1) g fid u ti cat m2 t2) g fid u ti cat m3 t3)
        g).map (fun r => (r.retry_count, r.next_retry_at)) =
        some (2, t3 + 12)) ∧
    ((retryLookup (add_to_retry_queue (add_to_retry_queue (add_to_retry_queue
        (add_to_retry_queue db g fid u ti cat m1 t1) g fid u ti cat m2 t2) g
        fid u ti cat m3 t3) g fid u ti cat m4 t4) g).map
        (fun r => (r.retry_count, r.next_retry_at)) = some (3, t4 + 24)) ∧
    (t1 + 1 < t2 + 4 ∧ t2 + 4 < t3 + 12 ∧ t3 + 12 < t4 + 24) ∧
    (retryLookup (add_to_retry_queue (add_to_retry_queue (add_to_retry_queue
        (add_to_retry_queue (add_to_retry_queue db g fid u ti cat m1 t1) g fid
        u ti cat m2 t2) g fid u ti cat m3 t3) g fid u ti cat m4 t4) g fid u ti
        cat m5 t5) g = none) ∧
    ((add_to_retry_queue (add_to_retry_queue (add_to_retry_queue
        (add_to_retry_queue (add_to_retry_queue db g fid u ti cat m1 t1) g fid
        u ti cat m2 t2) g fid u ti cat m3 t3) g fid u ti cat m4 t4) g fid u ti
        cat m5 t5).processed_entries = db.processed_entries) := by
  have e1 := add_lookup_none db g fid u ti cat m1 t1 h0
  have e2 := add_lookup_some (add_to_retry_queue db g fid u ti cat m1 t1) g
    fid u ti cat m2 t2 _ e1 (by simp [BACKOFF_HOURS])
  simp only [BACKOFF_HOURS] at e2
  have e3 := add_lookup_some _ g fid u ti cat m3 t3 _ e2
    (by simp [BACKOFF_HOURS])
  simp only [BACKOFF_HOURS] at e3
  have e4 := add_lookup_some _ g fid u ti cat m4 t4 _ e3
    (by simp [BACKOFF_HOURS])
  simp only [BACKOFF_HOURS] at e4
  have e5 := add_lookup_giveup _ g fid u ti cat m5 t5 _ e4
    (by simp [BACKOFF_HOURS])
  refine ⟨by rw [e1]; simp, by rw [e2]; simp, by rw [e3]; simp,
    by rw [e4]; simp, ⟨by omega, by omega, by omega⟩, e5, ?_⟩
  have p1 := (add_frame db g fid u ti cat m1 t1).1
  have p2 := (add_frame (add_to_retry_queue db g fid u ti cat m1 t1) g fid u
    ti cat m2 t2).1
  have p3 := (add_frame (add_to_retry_queue (add_to_retry_queue db g fid u ti cat m1 t1) g fid u ti cat m2 t2) g fid u ti cat m3 t3).1
  have p4 := (add_frame (add_to_retry_queue (add_to_retry_queue (add_to_retry_queue db g fid u ti cat m1 t1) g fid u ti cat m2 t2) g fid u ti cat m3 t3) g fid u ti cat m4 t4).1
  have p5 := (add_frame (add_to_retry_queue (add_to_retry_queue (add_to_retry_queue (add_to_retry_queue db g fid u ti cat m1 t1) g fid u ti cat m2 t2) g fid u ti cat m3 t3) g fid u ti cat m4 t4) g fid u ti cat m5 t5).1
  rw [p5, p4, p3, p2, p1]

/-- Witness for C3 amended: five consecutive failures of guid g2 at hours
0,1,2,3,4 walk the whole schedule and the 5th deletes the entry. -/
theorem c3_amended_witness :
    ((retryLookup (addFail dbEmpty 0) "g2").map
        (fun r => (r.retry_count, r.next_retry_at)) = some (0, 0 + 1)) ∧
    ((retryLookup (addFail (addFail dbEmpty 0) 1) "g2").map
        (fun r => (r.retry_count, r.next_retry_at)) = some (1, 1 + 4)) ∧
    ((retryLookup (addFail (addFail (addFail dbEmpty 0) 1) 2) "g2").map
        (fun r => (r.retry_count, r.next_retry_at)) = some (2, 2 + 12)) ∧
    ((retryLookup (addFail (addFail (addFail (addFail dbEmpty 0) 1) 2) 3)
        "g2").map (fun r => (r.retry_count, r.next_retry_at)) =
        some (3, 3 + 24)) ∧
    (0 + 1 < 1 + 4 ∧ 1 + 4 < 2 + 12 ∧ 2 + 12 < 3 + 24) ∧
    (retryLookup (addFail (addFail (addFail (addFail (addFail dbEmpty 0) 1)
        2) 3) 4) "g2" = none) ∧
    ((addFail (addFail (addFail (addFail (addFail dbEmpty 0) 1) 2) 3)
        4).processed_entries = dbEmpty.processed_entries) :=
  c3_amended dbEmpty "g2" 1 "u2" (some "T2") .articles "err" "err" "err"
    "err" "err" 0 1 2 3 4 rfl (by decide) (by decide) (by decide)

/-- C7: the processing loop is a total fold — processing any tail continues
after any prefix, whatever its outcomes (no item aborts the loop) — and each
iteration classifies its item into exactly one of: success, transient
failure (failed count), permanent failure, or already-processed skip. -/
theorem c7_item_isolation (o : Entry → SkillOutcome) (re : List Entry)
    (now : Nat) (s : LoopState) (e : Entry) (l1 l2 : List Entry) :
    (List.foldl (processEntry o re now) s (l1 ++ l2) =
      List.foldl (processEntry o re now)
        (List.foldl (processEntry o re now) s l1) l2) ∧
    (((processEntry o re now s e).res.processed = s.res.processed + 1 ∧
      (processEntry o re now s e).res.failed = s.res.failed ∧
      (processEntry o re now s e).res.permanent_failures =
        s.res.permanent_failures) ∨
     ((processEntry o re now s e).res.failed = s.res.failed + 1 ∧
      (processEntry o re now s e).res.processed = s.res.processed ∧
      (processEntry o re now s e).res.permanent_failures =
        s.res.permanent_failures) ∨
     ((processEntry o re now s e).res.permanent_failures =
        s.res.permanent_failures + 1 ∧
      (processEntry o re now s e).res.processed = s.res.processed ∧
      (processEntry o re now s e).res.failed = s.res.failed) ∨
     ((processEntry o re now s e).res = s.res ∧
      is_processed s.db e.guid = true)) :=
  ⟨List.foldl_append _ _ _ _, processEntry_classification o re now s e⟩

/-- C1 counterexample: a guid with a not-yet-due RetryEntry arrives as a new
feed entry and is processed successfully; the run ends with both a
ProcessedRecord and a RetryEntry for that guid, refuting the claimed
invariant that the two never coexist. -/
theorem c1_counterexample :
    is_processed (run_pipeline_inner envC1 dbC1 false none).db "g" = true ∧
    "g" ∈ retryGuids (run_pipeline_inner envC1 dbC1 false none).db := by
  refine ⟨by decide, by decide⟩

/-- C1 amended: a run preserves guid uniqueness of ProcessedRecord (at most
one record per guid), and an item drawn from the due-retry candidate set
never ends its iteration with a ProcessedRecord and a RetryEntry for its guid
at the same time; a guid processed through the new-entries path, however, may
keep a not-yet-due RetryEntry, so the global mutual exclusion of the original
claim does not hold. -/
theorem c1_amended :
    (∀ (env : PipelineEnv) (db : Database) (dry : Bool) (limit : Option Nat),
      (processedGuids db).Nodup →
      (processedGuids (run_pipeline_inner env db dry limit).db).Nodup) ∧
    (∀ (o : Entry → SkillOutcome) (re : List Entry) (now : Nat)
      (s : LoopState) (e : Entry), e ∈ re →
      ¬ (e.guid ∈ processedGuids (processEntry o re now s e).db ∧
         e.guid ∈ retryGuids (processEntry o re now s e).db)) := by
  constructor
  · intro env db dry limit h
    by_cases hm : validate_skills env.installed_skills = []
    · cases dry
      · rw [run_inner_go env db limit hm]
        exact loop_nodup env.oracle
          ((get_retry_candidates db env.now).map rowToEntry) env.now
          (candidateEntries (fetch_new_entries env.feed_entries db)
            ((get_retry_candidates db env.now).map rowToEntry) limit)
          { db := (record_run_start db env.now).2
            res := {}
            events := catchupEvents db env.now } h
      · rw [run_inner_dry env db limit hm]
        exact h
    · rw [run_inner_missing env db dry limit hm]
      exact h
  · intro o re now s e hre
    exact processEntry_no_coexistence o re now s e hre

/-- Witness for C1 amended: uniqueness is preserved across the concrete run
of the counterexample scenario. -/
theorem c1_amended_witness :
    (processedGuids (run_pipeline_inner envC1 dbC1 false none).db).Nodup :=
  c1_amended.1 envC1 dbC1 false none (by decide)

theorem find?_append_right_of_none {α : Type} (p : α → Bool) {l1 l2 : List α}
    (h : ∀ a ∈ l1, p a = false) : (l1 ++ l2).find? p = l2.find? p := by
  rw [List.find?_append, List.find?_eq_none.mpr
    (by intro x hx; simp [h x hx]), Option.none_or]

theorem processEntry_permanent_const (o : Entry → SkillOutcome)
    (re : List Entry) (now : Nat) (s : LoopState) (e : Entry) :
    (processEntry o re now s e).res.permanent_failures =
      s.res.permanent_failures := by
  unfold processEntry
  by_cases hp : is_processed s.db e.guid
  · by_cases hmem : e ∈ re <;> simp [hp, hmem]
  · have hp' : is_processed s.db e.guid = false := by simpa using hp
    cases ho : o e with
    | success np =>
      simp only [hp', Bool.false_eq_true, if_false, ho,
        mark_processed_ok s.db e.guid e.feed_id e.url (some e.title) (some np)
          now hp']
      by_cases hmem : e ∈ re <;> simp [hmem]
    | failure err => simp [hp', ho]
    | exn m => simp [hp', ho]

theorem loop_permanent_const (o : Entry → SkillOutcome) (re : List Entry)
    (now : Nat) (l : List Entry) (s : LoopState) :
    (List.foldl (processEntry o re now) s l).res.permanent_failures =
      s.res.permanent_failures := by
  induction l generalizing s with
  | nil => rfl
  | cons e es ih =>
    rw [List.foldl_cons]
    exact (ih (processEntry o re now s e)).trans
      (processEntry_permanent_const o re now s e)

/-- C10: the permanent-failure classification of pipeline.py lines 213-216 is
unreachable: SkillResult (skill_runner.py lines 11-19) has no permanent
attribute, so the read at line 213 raises AttributeError on every failed
skill result and the except handler of lines 232-244 treats it as a
transient failure — enqueued for retry and counted in the persisted
items_failed.  Every run ends with permanent_failures = 0, and the concrete
run over one failing item persists items_failed = 1 with the item in the
retry queue, so such failures are included in the persisted count rather
than excluded from it. -/
theorem c10_permanent_branch_unreachable :
    (∀ (env : PipelineEnv) (db : Database) (dry : Bool) (limit : Option Nat),
      (run_pipeline_inner env db dry limit).res.permanent_failures = 0) ∧
    (run_pipeline_inner envC10 dbEmpty false none).res.failed = 1 ∧
    (run_pipeline_inner envC10 dbEmpty false none).res.permanent_failures =
      0 ∧
    retryLookup (run_pipeline_inner envC10 dbEmpty false none).db "p" ≠
      none ∧
    (run_pipeline_inner envC10 dbEmpty false none).db.pipeline_runs.map
      (fun r => (r.items_failed, r.status)) =
      [(1, RunStatus.completed)] := by
  refine ⟨?_, by decide, by decide, by decide, by decide⟩
  intro env db dry limit
  by_cases hm : validate_skills env.installed_skills = []
  · cases dry
    · rw [run_inner_go env db limit hm]
      exact loop_permanent_const env.oracle
        ((get_retry_candidates db env.now).map rowToEntry) env.now
        (candidateEntries (fetch_new_entries env.feed_entries db)
          ((get_retry_candidates db env.now).map rowToEntry) limit)
        { db := (record_run_start db env.now).2
          res := {}
          events := catchupEvents db env.now }
    · rw [run_inner_dry env db limit hm]
  · rw [run_inner_missing env db dry limit hm]

theorem skillInvocations_append (l1 l2 : List Event) :
    skillInvocations (l1 ++ l2) =
      skillInvocations l1 ++ skillInvocations l2 := by
  simp [skillInvocations]

theorem skillInvocations_catchup (db : Database) (now : Nat) :
    skillInvocations (catchupEvents db now) = [] := by
  unfold catchupEvents
  cases get_last_successful_run db with
  | none => rfl
  | some t => by_cases h : 36 < now - t <;> simp [h, skillInvocations]

theorem skillInvocations_invoked (l : List Entry) :
    skillInvocations (l.map (fun e => Event.skillInvoked e.guid)) =
      l.map (fun e => e.guid) := by
  induction l with
  | nil => rfl
  | cons x xs ih => simp [skillInvocations] at ih ⊢; exact ih

/-- C5: with limit 2, five new entries and three due retries, the candidate
list is the two first new entries (new entries take priority under
truncation); exactly those two are driven through the skill runner, every
pre-existing retry row is still in the queue after the run, and the three
remaining new entries are still unprocessed. -/
theorem c5_limit_new_priority (env : PipelineEnv) (db : Database)
    (hm : validate_skills env.installed_skills = [])
    (h5 : (fetch_new_entries env.feed_entries db).length = 5)
    (h3 : (get_retry_candidates db env.now).length = 3)
    (hnd : ((fetch_new_entries env.feed_entries db).map
      (fun e => e.guid)).Nodup)
    (hdisj : ∀ e ∈ fetch_new_entries env.feed_entries db,
      e.guid ∉ retryGuids db) :
    candidateEntries (fetch_new_entries env.feed_entries db)
      ((get_retry_candidates db env.now).map rowToEntry) (some 2) =
      (fetch_new_entries env.feed_entries db).take 2 ∧
    skillInvocations (run_pipeline_inner env db false (some 2)).events =
      ((fetch_new_entries env.feed_entries db).take 2).map
        (fun e => e.guid) ∧
    (∀ r ∈ db.retry_queue,
      r ∈ (run_pipeline_inner env db false (some 2)).db.retry_queue) ∧
    (∀ e ∈ (fetch_new_entries env.feed_entries db).drop 2,
      is_processed (run_pipeline_inner env db false (some 2)).db e.guid =
        false) := by
  have hunp : ∀ e ∈ fetch_new_entries env.feed_entries db,
      is_processed db e.guid = false := by
    intro e he
    have := (List.mem_filter.mp he).2
    simpa using this
  have hcand : candidateEntries (fetch_new_entries env.feed_entries db)
      ((get_retry_candidates db env.now).map rowToEntry) (some 2) =
      (fetch_new_entries env.feed_entries db).take 2 := by
    have hlen : (fetch_new_entries env.feed_entries db ++
        (get_retry_candidates db env.now).map rowToEntry).length = 8 := by
      rw [List.length_append, h5, List.length_map, h3]
    simp only [candidateEntries]
    rw [if_pos (by omega), List.take_append_of_le_length (by omega)]
  refine ⟨hcand, ?_, ?_, ?_⟩
  · rw [run_inner_go env db (some 2) hm, hcand]
    rw [loop_events_exact env.oracle
      ((get_retry_candidates db env.now).map rowToEntry) env.now
      ((fetch_new_entries env.feed_entries db).take 2)
      { db := (record_run_start db env.now).2
        res := {}
        events := catchupEvents db env.now }
      (fun e he => hunp e (List.mem_of_mem_take he))
      (by rw [List.map_take]
          exact List.Nodup.sublist (List.take_sublist 2 _) hnd)]
    rw [skillInvocations_append, skillInvocations_catchup,
      skillInvocations_invoked, List.nil_append]
  · intro r hr
    rw [run_inner_go env db (some 2) hm, hcand]
    exact loop_retry_keeps env.oracle
      ((get_retry_candidates db env.now).map rowToEntry) env.now
      ((fetch_new_entries env.feed_entries db).take 2)
      { db := (record_run_start db env.now).2
        res := {}
        events := catchupEvents db env.now } r hr
      (fun e he heq => hdisj e (List.mem_of_mem_take he)
        (heq ▸ List.mem_map_of_mem (fun x => x.entry_guid) hr))
  · intro e he
    rw [run_inner_go env db (some 2) hm, hcand, is_processed_false_iff]
    intro habs
    rcases loop_processed_bound env.oracle
      ((get_retry_candidates db env.now).map rowToEntry) env.now
      ((fetch_new_entries env.feed_entries db).take 2)
      { db := (record_run_start db env.now).2
        res := {}
        events := catchupEvents db env.now } e.guid habs with hmem | hmem
    · exact (is_processed_false_iff db e.guid).mp
        (hunp e (List.mem_of_mem_drop he)) hmem
    · exact List.disjoint_take_drop (m := 2) (n := 2) hnd (Nat.le_refl 2)
        (by rwa [← List.map_take])
        (by rw [← List.map_drop]
            exact List.mem_map_of_mem (fun x => x.guid) he)

/-- Witness for C5: five concrete new entries, three due retries, limit 2. -/
theorem c5_limit_new_priority_witness :
    candidateEntries (fetch_new_entries envC5.feed_entries dbC5)
      ((get_retry_candidates dbC5 envC5.now).map rowToEntry) (some 2) =
      (fetch_new_entries envC5.feed_entries dbC5).take 2 ∧
    skillInvocations (run_pipeline_inner envC5 dbC5 false (some 2)).events =
      ((fetch_new_entries envC5.feed_entries dbC5).take 2).map
        (fun e => e.guid) ∧
    (∀ r ∈ dbC5.retry_queue,
      r ∈ (run_pipeline_inner envC5 dbC5 false (some 2)).db.retry_queue) ∧
    (∀ e ∈ (fetch_new_entries envC5.feed_entries dbC5).drop 2,
      is_processed (run_pipeline_inner envC5 dbC5 false (some 2)).db e.guid =
        false) :=
  c5_limit_new_priority envC5 dbC5 (by decide) (by decide) (by decide)
    (by decide) (by decide)
